import Mathlib

/-
Verification of the CodeGuard workflow orchestrator.

This file is a shallow embedding of the orchestration core of the
CodeGuard repository (src/orchestration/graph.py, src/orchestration/state.py,
src/tools/jira_client.py) together with the output schemas the four reviewer
agents declare (src/agents/\x2a.py).  Python dictionaries produced by the
agents are modelled as Lean structures whose fields follow the pydantic
schemas declared in the agent modules; machine integers are modelled as Int
(Python ints are unbounded); fallible calls are modelled with Except.

External collaborators (the LLM-backed reviewer calls, the Jira HTTP client,
the GitHub comment publisher) are modelled as parameters: the embedding
receives the outcome of each external call and reproduces exactly what the
orchestrator code does with it.
-/

namespace CodeGuard

/-- Python string slicing `s[:n]`: the first `n` characters of `s`. -/
def pySlice (s : String) (n : Nat) : String := ⟨s.data.take n⟩

/-- Python `str.lower()` restricted to ASCII case mapping, which is all the
severity labels ever need. -/
def pyLower (s : String) : String := ⟨s.data.map Char.toLower⟩

/-- One changed file of the reviewed pull request, as produced by
`fetch_pr_diff` in src/api/github_client.py (one chunk per changed file). -/
structure DiffChunk where
  filename : String := ""
  status : String := ""
  additions : Nat := 0
  deletions : Nat := 0
  patch : String := ""
deriving Repr, DecidableEq

/-- One issue dictionary produced by a reviewer agent.  The shared fields
(file, line, severity, message, suggestion) follow the pydantic models
StyleIssue, SecurityIssue, PerfIssue and ArchIssue in src/agents.  The
reviewer specific fields (category, principle, cwe_id, exploitable, impact)
are optional because each agent only emits its own subset; the orchestrator
reads them with dict.get and a default. -/
structure Finding where
  file : String := ""
  line : Nat := 0
  severity : String := ""
  category : Option String := none
  principle : Option String := none
  message : String := ""
  suggestion : String := ""
  cwe_id : Option String := none
  exploitable : Option Bool := none
  impact : Option String := none
deriving Repr, DecidableEq

/-- Output of the style agent: pydantic model StyleReview in
src/agents/style_agent.py. -/
structure StyleReview where
  pr_summary : String := ""
  issues : List Finding := []
  overall_score : Int := 0
  approved : Bool := false
deriving Repr, DecidableEq

/-- Output of the security agent: pydantic model SecurityReview in
src/agents/security_agent.py. -/
structure SecurityReview where
  pr_summary : String := ""
  issues : List Finding := []
  risk_score : Int := 0
  has_critical : Bool := false
  approved : Bool := false
deriving Repr, DecidableEq

/-- Output of the performance agent: pydantic model PerfReview in
src/agents/performance_agent.py. -/
structure PerfReview where
  pr_summary : String := ""
  issues : List Finding := []
  perf_score : Int := 0
  approved : Bool := false
deriving Repr, DecidableEq

/-- Output of the architecture agent: pydantic model ArchReview in
src/agents/arch_agent.py. -/
structure ArchReview where
  pr_summary : String := ""
  issues : List Finding := []
  arch_score : Int := 0
  approved : Bool := false
deriving Repr, DecidableEq

/-- The `summary` sub-dictionary of the final report built by
`_build_report` (src/orchestration/graph.py lines 161..171). -/
structure ReportSummary where
  total_issues : Nat := 0
  critical : Nat := 0
  high : Nat := 0
  medium : Nat := 0
  low : Nat := 0
  style_score : Int := 0
  security_score : Int := 0
  perf_score : Int := 0
  arch_score : Int := 0
deriving Repr, DecidableEq

/-- The final report dictionary built by `_build_report`
(src/orchestration/graph.py lines 155..176). -/
structure FinalReport where
  repo : String := ""
  pr_number : Nat := 0
  pr_title : String := ""
  severity : String := "LOW"
  approved : Bool := false
  summary : ReportSummary := {}
  style_issues : List Finding := []
  security_issues : List Finding := []
  perf_issues : List Finding := []
  arch_issues : List Finding := []
deriving Repr, DecidableEq

/-- A ticket record returned by `JiraClient.create_ticket`
(src/tools/jira_client.py lines 42..46 and 61..65). -/
structure Ticket where
  key : String := ""
  url : String := ""
  status : String := ""
deriving Repr, DecidableEq

/-- The CodeGuardState TypedDict of src/orchestration/state.py.  Keys the
code reads through `dict.get` with a default are modelled as plain fields
whose structure default is that same default (`severity_level` defaults to
"LOW", `next_action` to "normal", exactly the defaults used at graph.py
lines 60 and 252); the optional keys keep their Option type.  The
`messages` key is annotated with `operator.add`, so node updates are
concatenated onto it. -/
structure CodeGuardState where
  repo_name : String := ""
  pr_number : Nat := 0
  pr_title : String := ""
  pr_author : String := ""
  diff_chunks : List DiffChunk := []
  style_review : Option StyleReview := none
  security_review : Option SecurityReview := none
  perf_review : Option PerfReview := none
  arch_review : Option ArchReview := none
  severity_level : String := "LOW"
  should_autofix : Bool := false
  next_action : String := "normal"
  final_report : Option FinalReport := none
  jira_tickets : Option (List Ticket) := none
  messages : List String := []
deriving Repr, DecidableEq

/-- graph.py line 144: `state.get("style_review", {}).get("issues", []) or []`. -/
def styleIssues (state : CodeGuardState) : List Finding :=
  match state.style_review with
  | none => []
  | some r => r.issues

/-- graph.py line 145: the security issue list, defaulting to empty. -/
def securityIssues (state : CodeGuardState) : List Finding :=
  match state.security_review with
  | none => []
  | some r => r.issues

/-- graph.py line 146: the performance issue list, defaulting to empty. -/
def perfIssues (state : CodeGuardState) : List Finding :=
  match state.perf_review with
  | none => []
  | some r => r.issues

/-- graph.py line 147: the architecture issue list, defaulting to empty. -/
def archIssues (state : CodeGuardState) : List Finding :=
  match state.arch_review with
  | none => []
  | some r => r.issues

/-- graph.py line 149: `all_issues = style_issues + security_issues +
perf_issues + arch_issues`. -/
def all_issues (state : CodeGuardState) : List Finding :=
  styleIssues state ++ securityIssues state ++ perfIssues state ++ archIssues state

/-- graph.py line 150: the CRITICAL bucket of the concatenated findings. -/
def criticalBucket (state : CodeGuardState) : List Finding :=
  (all_issues state).filter (fun i => i.severity == "CRITICAL")

/-- graph.py line 151: the HIGH bucket. -/
def highBucket (state : CodeGuardState) : List Finding :=
  (all_issues state).filter (fun i => i.severity == "HIGH")

/-- graph.py line 152: the MEDIUM bucket. -/
def mediumBucket (state : CodeGuardState) : List Finding :=
  (all_issues state).filter (fun i => i.severity == "MEDIUM")

/-- graph.py line 153: the LOW bucket. -/
def lowBucket (state : CodeGuardState) : List Finding :=
  (all_issues state).filter (fun i => i.severity == "LOW")

/-- graph.py line 167: `state.get("style_review", {}).get("overall_score", 0) or 0`. -/
def styleScore (state : CodeGuardState) : Int :=
  match state.style_review with
  | none => 0
  | some r => r.overall_score

/-- graph.py line 168: the security risk score, defaulting to 0. -/
def securityScore (state : CodeGuardState) : Int :=
  match state.security_review with
  | none => 0
  | some r => r.risk_score

/-- graph.py line 169: the performance score, defaulting to 0. -/
def perfScore (state : CodeGuardState) : Int :=
  match state.perf_review with
  | none => 0
  | some r => r.perf_score

/-- graph.py line 170: the architecture score, defaulting to 0. -/
def archScore (state : CodeGuardState) : Int :=
  match state.arch_review with
  | none => 0
  | some r => r.arch_score

/-- `_build_report` of src/orchestration/graph.py lines 143..176: the pure
report builder used by both jira_node and aggregator_node. -/
def build_report (state : CodeGuardState) : FinalReport :=
  { repo := state.repo_name
    pr_number := state.pr_number
    pr_title := state.pr_title
    severity := state.severity_level
    approved := (criticalBucket state).length == 0 && (highBucket state).length == 0
    summary :=
      { total_issues := (all_issues state).length
        critical := (criticalBucket state).length
        high := (highBucket state).length
        medium := (mediumBucket state).length
        low := (lowBucket state).length
        style_score := styleScore state
        security_score := securityScore state
        perf_score := perfScore state
        arch_score := archScore state }
    style_issues := styleIssues state
    security_issues := securityIssues state
    perf_issues := perfIssues state
    arch_issues := archIssues state }

/-- The outcome of awaiting each of the four reviewer calls started by
`parallel_review_node` (graph.py lines 19..24): `.ok` when the agent call
returned a review, `.error` when it raised or timed out. -/
structure AgentResults where
  style : Except String StyleReview
  security : Except String SecurityReview
  perf : Except String PerfReview
  arch : Except String ArchReview

/-- `asyncio.gather(...)` as used at graph.py line 19, with its default
`return_exceptions=False`: when every sub-task succeeds it yields the tuple
of results; when any sub-task raises, the whole gather raises and no result
tuple is delivered.  (asyncio raises the temporally first exception; this
embedding picks the positionally first one — every claim below depends only
on whether an error is raised, not on which.) -/
def gather4 (r : AgentResults) :
    Except String (StyleReview × SecurityReview × PerfReview × ArchReview) := do
  let style_result ← r.style
  let security_result ← r.security
  let perf_result ← r.perf
  let arch_result ← r.arch
  pure (style_result, security_result, perf_result, arch_result)

/-- The node update returned by `parallel_review_node`
(graph.py lines 38..52). -/
structure ParallelUpdate where
  style_review : StyleReview
  security_review : SecurityReview
  perf_review : PerfReview
  arch_review : ArchReview
  severity_level : String
  should_autofix : Bool
  messages : List String
deriving Repr, DecidableEq

/-- `parallel_review_node` of src/orchestration/graph.py lines 15..52:
gather the four reviewer results, derive the run severity from the security
result alone, and return the node update. -/
def parallel_review_node (r : AgentResults) : Except String ParallelUpdate := do
  let (style_result, security_result, perf_result, arch_result) ← gather4 r
  let has_critical := security_result.has_critical
  let risk_score := security_result.risk_score
  let severity :=
    if has_critical then "CRITICAL"
    else if risk_score ≥ 7 then "HIGH"
    else if risk_score ≥ 4 then "MEDIUM"
    else "LOW"
  pure
    { style_review := style_result
      security_review := security_result
      perf_review := perf_result
      arch_review := arch_result
      severity_level := severity
      should_autofix := has_critical
      messages :=
        [ "Style     : " ++ toString style_result.overall_score ++ "/10",
          "Security  : " ++ toString security_result.risk_score ++ "/10 risk",
          "Perf      : " ++ toString perf_result.perf_score ++ "/10",
          "Arch      : " ++ toString arch_result.arch_score ++ "/10",
          "Severity  : " ++ severity ] }

/-- Merge the parallel-review update into the running state, following the
LangGraph merge rule for CodeGuardState: every key replaces, `messages`
concatenates (operator.add annotation in state.py line 30). -/
def applyParallel (s : CodeGuardState) (u : ParallelUpdate) : CodeGuardState :=
  { s with
    style_review := some u.style_review
    security_review := some u.security_review
    perf_review := some u.perf_review
    arch_review := some u.arch_review
    severity_level := u.severity_level
    should_autofix := u.should_autofix
    messages := s.messages ++ u.messages }

/-- The node update returned by `supervisor_node`
(graph.py lines 73..76). -/
structure SupervisorUpdate where
  next_action : String
  messages : List String
deriving Repr, DecidableEq

/-- `supervisor_node` of src/orchestration/graph.py lines 55..76: map the
severity string to a next_action tag.  Any severity other than CRITICAL or
HIGH — including values outside the four-level scale — falls into the else
branch and becomes "normal". -/
def supervisor_node (state : CodeGuardState) : SupervisorUpdate :=
  let severity := state.severity_level
  let next_action :=
    if severity = "CRITICAL" then "critical"
    else if severity = "HIGH" then "high"
    else "normal"
  { next_action := next_action
    messages := ["Supervisor decision: " ++ next_action] }

/-- Merge the supervisor update into the running state. -/
def applySupervisor (s : CodeGuardState) (u : SupervisorUpdate) : CodeGuardState :=
  { s with next_action := u.next_action, messages := s.messages ++ u.messages }

/-- `route_after_supervisor` of src/orchestration/graph.py lines 251..255. -/
def route_after_supervisor (state : CodeGuardState) : String :=
  let next_action := state.next_action
  if next_action ∈ ["critical", "high"] then "jira_node" else "aggregator"

/-- The environment of one process running JiraClient
(src/tools/jira_client.py): whether the client is configured
(`enabled = all([JIRA_URL, JIRA_EMAIL, JIRA_API_TOKEN])`), the configured
url and project key, the outcome of `self.client.create_issue` on the real
path, and the `hash` function of the hosting Python process.  CPython salts
the hash of every str per process (PYTHONHASHSEED), so `hash` is a property
of one run of the program, not of the summary text alone; it is therefore a
parameter of the environment here. -/
structure JiraEnv where
  jiraUrl : String := ""
  projectKey : String := "CG"
  enabled : Bool := false
  hash : String → Int := fun _ => 0
  createIssue : String → String → String → String → List String → Except String String :=
    fun _ _ _ _ _ => Except.error "not configured"

/-- `JiraClient.create_ticket` of src/tools/jira_client.py lines 25..65.
Unconfigured: a simulated ticket whose id is
`{JIRA_PROJECT_KEY}-{hash(summary) % 1000}` (Python `%` on a positive
modulus is Int.emod here, both give a result in [0, 1000)).  Configured:
the real client is called with the summary truncated to 255 characters and
`labels or ["codeguard", "automated"]`; an exception from the client
propagates. -/
def create_ticket (env : JiraEnv) (summary description issue_type priority : String)
    (labels : List String) : Except String Ticket :=
  if !env.enabled then
    let ticket_id := env.projectKey ++ "-" ++ toString (env.hash summary % 1000)
    Except.ok
      { key := ticket_id
        url := "https://jira.example.com/browse/" ++ ticket_id
        status := "simulated" }
  else
    match env.createIssue (pySlice summary 255) description issue_type priority
        (if labels.isEmpty then ["codeguard", "automated"] else labels) with
    | Except.error e => Except.error e
    | Except.ok key =>
        Except.ok
          { key := key
            url := env.jiraUrl ++ "/browse/" ++ key
            status := "created" }

/-- jira_client.py line 79: the pull request url built for descriptions. -/
def pr_url (repo_name : String) (pr_number : Nat) : String :=
  "https://github.com/" ++ repo_name ++ "/pull/" ++ toString pr_number

/-- jira_client.py lines 82..87: the concatenation order used when
collecting issues for ticket creation (security, perf, style, arch). -/
def jiraAllIssues (final_report : FinalReport) : List Finding :=
  final_report.security_issues ++ final_report.perf_issues ++
    final_report.style_issues ++ final_report.arch_issues

/-- jira_client.py lines 89..92: `i.get("severity") in ["HIGH", "CRITICAL"]`. -/
def isHighPlus (i : Finding) : Bool :=
  i.severity == "HIGH" || i.severity == "CRITICAL"

/-- jira_client.py lines 89..92: the issues that get tickets. -/
def high_plus (final_report : FinalReport) : List Finding :=
  (jiraAllIssues final_report).filter isHighPlus

/-- jira_client.py lines 100..102: the ticket summary for one issue. -/
def ticket_summary (issue : Finding) : String :=
  "[CodeGuard] [" ++ issue.severity ++ "] " ++ pySlice issue.message 100

/-- jira_client.py lines 104..119: the ticket description for one issue
(`issue.get("category", issue.get("principle", "N/A"))` for the category
line). -/
def ticket_description (pr_number : Nat) (pr_title purl : String) (issue : Finding) : String :=
  "\nCodeGuard automated review found a " ++ issue.severity ++ " issue in PR #"
    ++ toString pr_number ++ ".\n\n"
    ++ "*Pull Request:* [" ++ pr_title ++ "|" ++ purl ++ "]\n"
    ++ "*File:* " ++ issue.file ++ "\n"
    ++ "*Line:* " ++ toString issue.line ++ "\n"
    ++ "*Category:* " ++ (issue.category.getD (issue.principle.getD "N/A")) ++ "\n\n"
    ++ "*Issue:*\n" ++ issue.message ++ "\n\n"
    ++ "*Suggested Fix:*\n" ++ issue.suggestion ++ "\n\n"
    ++ "_This ticket was automatically created by CodeGuard._\n"

/-- The argument tuple of the `self.create_ticket(...)` call built for one
issue of the ticket loop, jira_client.py lines 96..126. -/
structure TicketRequest where
  summary : String
  description : String
  issue_type : String
  priority : String
  labels : List String
deriving Repr, DecidableEq

/-- jira_client.py lines 96..126: the per-issue ticket request
(`severity = issue.get("severity", "HIGH")`, which is the severity field
itself for every filtered issue, since the filter admits only "HIGH" and
"CRITICAL"). -/
def ticket_request (pr_number : Nat) (pr_title purl : String) (issue : Finding) :
    TicketRequest :=
  let severity := issue.severity
  let priority := if severity = "CRITICAL" then "Highest" else "High"
  { summary := ticket_summary issue
    description := ticket_description pr_number pr_title purl issue
    issue_type := if severity = "CRITICAL" then "Bug" else "Task"
    priority := priority
    labels := ["codeguard", pyLower severity, "pr-review"] }

/-- `JiraClient.create_tickets_from_review` of src/tools/jira_client.py
lines 67..128: one `create_ticket` call per HIGH or CRITICAL issue, in
order; the first exception propagates (there is no try/except in the loop). -/
def create_tickets_from_review (env : JiraEnv) (repo_name : String) (pr_number : Nat)
    (pr_title : String) (final_report : FinalReport) : Except String (List Ticket) :=
  let purl := pr_url repo_name pr_number
  (high_plus final_report).mapM fun issue =>
    let req := ticket_request pr_number pr_title purl issue
    create_ticket env req.summary req.description req.issue_type req.priority req.labels

/-- The node update returned by `jira_node` (graph.py lines 92..95). -/
structure JiraUpdate where
  jira_tickets : List Ticket
  messages : List String
deriving Repr, DecidableEq

/-- graph.py line 83: `state.get("final_report") or _build_report(state)`.
A stored report dictionary is always non-empty hence truthy, so the `or`
falls back to `_build_report` exactly when no final report is stored. -/
def jiraReportOf (state : CodeGuardState) : FinalReport :=
  match state.final_report with
  | some r => r
  | none => build_report state

/-- `jira_node` of src/orchestration/graph.py lines 79..95: build (or reuse)
the report, create the tickets, return the update.  The ticket-creation
call is not wrapped in any error handling, so its exception propagates out
of the node. -/
def jira_node (env : JiraEnv) (state : CodeGuardState) : Except String JiraUpdate := do
  let final_report := jiraReportOf state
  let tickets ← create_tickets_from_review env state.repo_name state.pr_number
    state.pr_title final_report
  pure
    { jira_tickets := tickets
      messages := ["Created " ++ toString tickets.length ++ " JIRA tickets"] }

/-- Merge the jira update into the running state. -/
def applyJira (s : CodeGuardState) (u : JiraUpdate) : CodeGuardState :=
  { s with jira_tickets := some u.jira_tickets, messages := s.messages ++ u.messages }

/-- The node update returned by `aggregator_node`
(graph.py lines 115..118). -/
structure AggregatorUpdate where
  final_report : FinalReport
  messages : List String
deriving Repr, DecidableEq

/-- `aggregator_node` of src/orchestration/graph.py lines 98..118: store
the built report. -/
def aggregator_node (state : CodeGuardState) : AggregatorUpdate :=
  let report := build_report state
  { final_report := report
    messages := ["Final: " ++ toString report.summary.total_issues ++ " issues"] }

/-- Merge the aggregator update into the running state. -/
def applyAggregator (s : CodeGuardState) (u : AggregatorUpdate) : CodeGuardState :=
  { s with final_report := some u.final_report, messages := s.messages ++ u.messages }

/-- graph.py lines 185..188: the severity emoji table with default. -/
def severity_emoji (severity : String) : String :=
  if severity = "CRITICAL" then "🚨"
  else if severity = "HIGH" then "🔴"
  else if severity = "MEDIUM" then "🟡"
  else if severity = "LOW" then "🟢"
  else "⚪"

/-- One block of the critical-issues section of the GitHub comment
(graph.py lines 223..227). -/
def critical_issue_block (issue : Finding) : String :=
  "\n> **" ++ issue.file ++ "** line " ++ toString issue.line ++ "\n> "
    ++ issue.message ++ "\n>  Fix: " ++ issue.suggestion ++ "\n"

/-- One line of the high-issues section of the GitHub comment
(graph.py line 243). -/
def high_issue_line (issue : Finding) : String :=
  "- **" ++ issue.file ++ ":" ++ toString issue.line ++ "** — " ++ issue.message ++ "\n"

/-- `_format_github_comment` of src/orchestration/graph.py lines 179..246. -/
def format_github_comment (report : FinalReport) : String :=
  let summary := report.summary
  let verdict := if report.approved then "APPROVED" else "CHANGES REQUESTED"
  let comment :=
    "## CodeGuard Automated Review\n\n### " ++ verdict ++ " "
      ++ severity_emoji report.severity ++ " Severity: " ++ report.severity ++ "\n\n"
      ++ "| Agent | Score | Issues |\n|-------|-------|--------|\n"
      ++ "| Style | " ++ toString summary.style_score ++ "/10 | "
      ++ toString report.style_issues.length ++ " |\n"
      ++ "| Security | " ++ toString summary.security_score ++ "/10 risk | "
      ++ toString report.security_issues.length ++ " |\n"
      ++ "| Performance | " ++ toString summary.perf_score ++ "/10 | "
      ++ toString report.perf_issues.length ++ " |\n"
      ++ "| Architecture | " ++ toString summary.arch_score ++ "/10 | "
      ++ toString report.arch_issues.length ++ " |\n\n"
      ++ "### Summary\n- Critical: **" ++ toString summary.critical ++ "**\n"
      ++ "- High: **" ++ toString summary.high ++ "**\n"
      ++ "- Medium: **" ++ toString summary.medium ++ "**\n"
      ++ "- Low: **" ++ toString summary.low ++ "**\n"
      ++ "- Total: **" ++ toString summary.total_issues ++ "**\n"
  let critical_issues :=
    (report.security_issues ++ report.perf_issues ++ report.style_issues
      ++ report.arch_issues).filter (fun i => i.severity == "CRITICAL")
  let comment :=
    if critical_issues.isEmpty then comment
    else comment ++ "\n### Critical Issues (Must Fix)\n"
      ++ String.join (critical_issues.map critical_issue_block)
  let high_issues :=
    (report.security_issues ++ report.perf_issues ++ report.style_issues
      ++ report.arch_issues).filter (fun i => i.severity == "HIGH")
  let comment :=
    if high_issues.isEmpty then comment
    else comment ++ "\n### High Issues (Should Fix)\n"
      ++ String.join ((high_issues.take 5).map high_issue_line)
  comment ++ "\n---\n*Reviewed by [CodeGuard](https://github.com/Tejesh0209/CodeGuard)*"

/-- The report value `state.get("final_report", {})` read at graph.py line
125: when no report is stored the node formats the empty dictionary, whose
`get` defaults are exactly the structure defaults of FinalReport. -/
def reportOrEmpty (state : CodeGuardState) : FinalReport :=
  match state.final_report with
  | some r => r
  | none => {}

/-- The node update returned by `post_comment_node`
(graph.py lines 136..138). -/
structure PostUpdate where
  messages : List String
deriving Repr, DecidableEq

/-- `post_comment_node` of src/orchestration/graph.py lines 121..138.  The
publisher argument is the external `post_pr_comment` call (the Notification
Contract); the node awaits it and propagates its exception, then records
the log message. -/
def post_comment_node (publish : String → Nat → String → Except String Unit)
    (state : CodeGuardState) : Except String PostUpdate := do
  let report := reportOrEmpty state
  let comment := format_github_comment report
  let _ ← publish state.repo_name state.pr_number comment
  pure { messages := ["GitHub comment posted"] }

/-- Merge the post-comment update into the running state. -/
def applyPost (s : CodeGuardState) (u : PostUpdate) : CodeGuardState :=
  { s with messages := s.messages ++ u.messages }

/-- One execution of the compiled graph of `build_graph`
(src/orchestration/graph.py lines 260..294): entry at parallel_review, then
supervisor, then the conditional edge of `route_after_supervisor` (jira_node
or aggregator), jira_node always continues to aggregator, aggregator to
post_comment, post_comment to END.  A node that raises ends the run with
that error and no further node executes. -/
def runWorkflow (env : JiraEnv) (publish : String → Nat → String → Except String Unit)
    (r : AgentResults) (s0 : CodeGuardState) : Except String CodeGuardState := do
  let u1 ← parallel_review_node r
  let s1 := applyParallel s0 u1
  let s2 := applySupervisor s1 (supervisor_node s1)
  let s3 ←
    if route_after_supervisor s2 = "jira_node" then do
      let u3 ← jira_node env s2
      pure (applyJira s2 u3)
    else
      pure s2
  let s4 := applyAggregator s3 (aggregator_node s3)
  let u5 ← post_comment_node publish s4
  pure (applyPost s4 u5)

end CodeGuard

namespace CodeGuard

/- ── Shared helper definitions and lemmas ──────────────────────── -/

/-- The simulated ticket record built on the unconfigured path of
`create_ticket` (jira_client.py lines 37..46). -/
def simulated_ticket (env : JiraEnv) (summary : String) : Ticket :=
  let ticket_id := env.projectKey ++ "-" ++ toString (env.hash summary % 1000)
  { key := ticket_id
    url := "https://jira.example.com/browse/" ++ ticket_id
    status := "simulated" }

theorem create_ticket_not_enabled (env : JiraEnv) (h : env.enabled = false)
    (summary description issue_type priority : String) (labels : List String) :
    create_ticket env summary description issue_type priority labels =
      Except.ok (simulated_ticket env summary) := by
  simp [create_ticket, h, simulated_ticket]

theorem mapM_except_ok {α β : Type} (g : α → Except String β) (f : α → β)
    (h : ∀ a, g a = Except.ok (f a)) :
    ∀ l : List α, l.mapM g = Except.ok (l.map f)
  | [] => rfl
  | a :: l => by
    rw [List.mapM_cons, h a, mapM_except_ok g f h l]
    rfl

/-- The ticket list produced on the unconfigured path: one simulated ticket
per HIGH or CRITICAL issue, in order. -/
def simulated_tickets (env : JiraEnv) (pr_number : Nat) (pr_title purl : String)
    (final_report : FinalReport) : List Ticket :=
  (high_plus final_report).map fun issue =>
    simulated_ticket env (ticket_request pr_number pr_title purl issue).summary

theorem create_tickets_from_review_not_enabled (env : JiraEnv) (h : env.enabled = false)
    (repo_name : String) (pr_number : Nat) (pr_title : String)
    (final_report : FinalReport) :
    create_tickets_from_review env repo_name pr_number pr_title final_report =
      Except.ok (simulated_tickets env pr_number pr_title (pr_url repo_name pr_number)
        final_report) := by
  unfold create_tickets_from_review simulated_tickets
  exact mapM_except_ok _ _ (fun issue => create_ticket_not_enabled env h _ _ _ _ _) _

theorem jira_node_not_enabled (env : JiraEnv) (h : env.enabled = false)
    (state : CodeGuardState) :
    ∃ u : JiraUpdate, jira_node env state = Except.ok u ∧
      u.jira_tickets = simulated_tickets env state.pr_number state.pr_title
        (pr_url state.repo_name state.pr_number) (jiraReportOf state) := by
  unfold jira_node
  simp only [create_tickets_from_review_not_enabled env h]
  exact ⟨_, rfl, rfl⟩

/-- Replace every reviewer approved flag, leaving every other field —
including the security fields that feed severity derivation and every
issue list — untouched. -/
def setApprovedFlags (s : CodeGuardState) (b1 b2 b3 b4 : Bool) : CodeGuardState :=
  { s with
    style_review := s.style_review.map (fun r => { r with approved := b1 })
    security_review := s.security_review.map (fun r => { r with approved := b2 })
    perf_review := s.perf_review.map (fun r => { r with approved := b3 })
    arch_review := s.arch_review.map (fun r => { r with approved := b4 }) }

/- ── C1 ───────────────────────────────────────────────────────── -/

/-- C1: the derived severity is computed solely from the security outcome —
CRITICAL when its has_critical flag is set, else HIGH when risk_score ≥ 7,
else MEDIUM when risk_score ≥ 4, else LOW — and changing the other three
reviewer results while holding the security result fixed never changes it. -/
theorem severity_derivation_depends_only_on_security
    (sec : SecurityReview) (st1 st2 : StyleReview) (p1 p2 : PerfReview)
    (a1 a2 : ArchReview) :
    ∃ u1 u2 : ParallelUpdate,
      parallel_review_node ⟨Except.ok st1, Except.ok sec, Except.ok p1, Except.ok a1⟩ =
        Except.ok u1 ∧
      parallel_review_node ⟨Except.ok st2, Except.ok sec, Except.ok p2, Except.ok a2⟩ =
        Except.ok u2 ∧
      u1.severity_level =
        (if sec.has_critical then "CRITICAL"
         else if sec.risk_score ≥ 7 then "HIGH"
         else if sec.risk_score ≥ 4 then "MEDIUM"
         else "LOW") ∧
      u2.severity_level = u1.severity_level := by
  exact ⟨_, _, rfl, rfl, rfl, rfl⟩

/- ── C2 ───────────────────────────────────────────────────────── -/

/-- C2: the report is approved exactly when the CRITICAL and HIGH buckets
are both empty; with zero findings the report is approved; and the four
reviewer approved flags have no influence on the report at all. -/
theorem approved_iff_no_critical_and_no_high (s : CodeGuardState)
    (b1 b2 b3 b4 : Bool) :
    ((build_report s).approved = true ↔ criticalBucket s = [] ∧ highBucket s = [])
    ∧ (all_issues s = [] → (build_report s).approved = true)
    ∧ build_report (setApprovedFlags s b1 b2 b3 b4) = build_report s := by
  refine ⟨?_, ?_, ?_⟩
  · simp [build_report, List.length_eq_zero]
  · intro h
    simp [build_report, criticalBucket, highBucket, h]
  · cases s with
    | mk repo_name pr_number pr_title pr_author diff_chunks style_review security_review
        perf_review arch_review severity_level should_autofix next_action final_report
        jira_tickets messages =>
      cases style_review <;> cases security_review <;> cases perf_review <;>
        cases arch_review <;>
        simp [setApprovedFlags, build_report, styleIssues, securityIssues, perfIssues,
          archIssues, all_issues, criticalBucket, highBucket, mediumBucket, lowBucket,
          styleScore, securityScore, perfScore, archScore]

/-- Closed instance of C2: the empty state has zero findings and its report
is approved. -/
theorem approved_iff_no_critical_and_no_high_witness :
    (build_report ({} : CodeGuardState)).approved = true :=
  (approved_iff_no_critical_and_no_high ({} : CodeGuardState) true true true true).2.1 rfl

end CodeGuard

namespace CodeGuard

/- ── C3 ───────────────────────────────────────────────────────── -/

/-- A jira environment with the client unconfigured (the development
default: none of JIRA_URL, JIRA_EMAIL, JIRA_API_TOKEN set) and a fixed
process hash. -/
def simEnv (h : String → Int) : JiraEnv :=
  { jiraUrl := "", projectKey := "CG", enabled := false, hash := h,
    createIssue := fun _ _ _ _ _ => Except.error "not configured" }

/-- A publisher whose external call always succeeds. -/
def pubOk : String → Nat → String → Except String Unit := fun _ _ _ => Except.ok ()

/-- C3 counterexample: with exactly one of the four reviewer calls failing
(here the security reviewer; the other three return results), the
`asyncio.gather` call at graph.py line 19 — which does not pass
`return_exceptions=True` — re-raises the failure out of
`parallel_review_node`, so no sentinel "unavailable" outcome is recorded
and the whole run ends at the parallel node: the aggregator is never
reached and no report is produced, contradicting the claim. -/
theorem one_reviewer_failure_aborts_run :
    parallel_review_node
      ⟨Except.ok {}, Except.error "security reviewer timed out",
        Except.ok {}, Except.ok {}⟩ =
      Except.error "security reviewer timed out"
    ∧ runWorkflow (simEnv fun _ => 0) pubOk
        ⟨Except.ok {}, Except.error "security reviewer timed out",
          Except.ok {}, Except.ok {}⟩ {} =
      Except.error "security reviewer timed out" :=
  ⟨rfl, rfl⟩

/-- C3 amended: there is no per-reviewer fault isolation — the parallel
node yields an update exactly when all four reviewer calls succeed; any
single failure makes the node (and hence the run) fail, with no sentinel
outcome for the failed slot. -/
theorem parallel_node_ok_iff_all_reviewers_ok (r : AgentResults) :
    (∃ u, parallel_review_node r = Except.ok u) ↔
      (∃ x, r.style = Except.ok x) ∧ (∃ x, r.security = Except.ok x)
        ∧ (∃ x, r.perf = Except.ok x) ∧ (∃ x, r.arch = Except.ok x) := by
  obtain ⟨st, sec, p, a⟩ := r
  cases st <;> cases sec <;> cases p <;> cases a <;>
    simp [parallel_review_node, gather4, Bind.bind, Except.bind, pure, Except.pure]

/- ── C4 ───────────────────────────────────────────────────────── -/

/-- C4: after severity derivation, the supervisor routing is a pure
function of the severity string — the composed decision of supervisor_node
and route_after_supervisor picks the jira escalation branch exactly when
severity is CRITICAL or HIGH and the aggregator branch otherwise — and the
supervisor update leaves every reviewer outcome (hence every finding) and
the stored report untouched. -/
theorem supervisor_routing_pure_in_severity (s : CodeGuardState) :
    (route_after_supervisor (applySupervisor s (supervisor_node s)) = "jira_node"
      ↔ s.severity_level = "CRITICAL" ∨ s.severity_level = "HIGH")
    ∧ (route_after_supervisor (applySupervisor s (supervisor_node s)) = "jira_node"
      ∨ route_after_supervisor (applySupervisor s (supervisor_node s)) = "aggregator")
    ∧ (applySupervisor s (supervisor_node s)).style_review = s.style_review
    ∧ (applySupervisor s (supervisor_node s)).security_review = s.security_review
    ∧ (applySupervisor s (supervisor_node s)).perf_review = s.perf_review
    ∧ (applySupervisor s (supervisor_node s)).arch_review = s.arch_review
    ∧ (applySupervisor s (supervisor_node s)).final_report = s.final_report := by
  refine ⟨?_, ?_, rfl, rfl, rfl, rfl, rfl⟩ <;>
    by_cases h1 : s.severity_level = "CRITICAL" <;>
    by_cases h2 : s.severity_level = "HIGH" <;>
    simp [route_after_supervisor, applySupervisor, supervisor_node, h1, h2]

end CodeGuard

namespace CodeGuard

/- ── C5 ───────────────────────────────────────────────────────── -/

theorem ticket_summary_length_le (i : Finding) (h : isHighPlus i = true) :
    (ticket_summary i).length ≤ 255 := by
  have hsev : i.severity.length ≤ 8 := by
    have h' : i.severity = "HIGH" ∨ i.severity = "CRITICAL" := by
      simpa [isHighPlus] using h
    rcases h' with h' | h' <;> rw [h'] <;> decide
  have hslice : (pySlice i.message 100).length ≤ 100 := List.length_take_le _ _
  have hA : ("[CodeGuard] [" : String).length = 13 := rfl
  have hB : ("] " : String).length = 2 := rfl
  unfold ticket_summary
  rw [String.length_append, String.length_append, String.length_append]
  omega

/-- C5: on the unconfigured-client path (which never raises), ticket
creation yields exactly one ticket per finding whose severity is HIGH or
CRITICAL across all reviewers, zero when there is none (LOW and MEDIUM
findings never produce tickets); and every ticket request built in the
loop has a summary within the 255-character budget, priority Highest for a
CRITICAL finding and High otherwise, and labels containing the lowercased
severity of its finding. -/
theorem escalation_one_ticket_per_high_critical (env : JiraEnv)
    (henv : env.enabled = false) (repo_name : String) (pr_number : Nat)
    (pr_title : String) (fr : FinalReport) :
    (∃ ts : List Ticket,
        create_tickets_from_review env repo_name pr_number pr_title fr = Except.ok ts ∧
        ts.length = (jiraAllIssues fr).countP isHighPlus)
    ∧ ((jiraAllIssues fr).countP isHighPlus = 0 →
        create_tickets_from_review env repo_name pr_number pr_title fr = Except.ok [])
    ∧ (∀ i ∈ high_plus fr,
        (ticket_request pr_number pr_title (pr_url repo_name pr_number) i).summary.length ≤ 255
        ∧ (ticket_request pr_number pr_title (pr_url repo_name pr_number) i).priority
            = (if i.severity = "CRITICAL" then "Highest" else "High")
        ∧ pyLower i.severity
            ∈ (ticket_request pr_number pr_title (pr_url repo_name pr_number) i).labels) := by
  have hok := create_tickets_from_review_not_enabled env henv repo_name pr_number pr_title fr
  refine ⟨⟨_, hok, ?_⟩, ?_, ?_⟩
  · show (simulated_tickets env pr_number pr_title (pr_url repo_name pr_number) fr).length = _
    rw [simulated_tickets, List.length_map, high_plus,
      ← List.countP_eq_length_filter]
  · intro h0
    have hlen : (high_plus fr).length = 0 := by
      rw [high_plus, ← List.countP_eq_length_filter]
      exact h0
    have hnil : high_plus fr = [] := List.length_eq_zero.mp hlen
    rw [hok, simulated_tickets, hnil]
    rfl
  · intro i hi
    have hhp : isHighPlus i = true := (List.mem_filter.mp hi).2
    exact ⟨ticket_summary_length_le i hhp, rfl, by simp [ticket_request]⟩

/-- A concrete CRITICAL security finding used in closed instances below. -/
def sampleCritical : Finding :=
  { file := "app.py", line := 10, severity := "CRITICAL",
    category := some "injection", message := "SQL injection in query builder",
    suggestion := "use bound query arguments" }

/-- Closed instance of C5: one CRITICAL finding yields exactly one
simulated ticket. -/
theorem escalation_one_ticket_per_high_critical_witness :
    ∃ ts : List Ticket,
      create_tickets_from_review (simEnv fun _ => 0) "octo/repo" 7 "Add login"
        { security_issues := [sampleCritical] } = Except.ok ts ∧
      ts.length =
        (jiraAllIssues { security_issues := [sampleCritical] }).countP isHighPlus :=
  (escalation_one_ticket_per_high_critical (simEnv fun _ => 0) rfl "octo/repo" 7
    "Add login" { security_issues := [sampleCritical] }).1

/- ── C6 ───────────────────────────────────────────────────────── -/

/-- C6 counterexample: fed a severity value outside the four-level scale
("PURPLE", which the routing cannot map), the supervisor silently defaults
to next_action "normal" and the conditional edge routes to the aggregator;
`supervisor_node` and `route_after_supervisor` are total functions with no
raising path, so this is not treated as a fatal contract violation. -/
theorem unmapped_severity_silently_defaults :
    supervisor_node { severity_level := "PURPLE" } =
      { next_action := "normal", messages := ["Supervisor decision: normal"] }
    ∧ route_after_supervisor
        (applySupervisor { severity_level := "PURPLE" }
          (supervisor_node { severity_level := "PURPLE" })) = "aggregator" :=
  ⟨rfl, rfl⟩

/-- C6 amended: the routing is total over all severity strings (not just
the reachable four), and any severity it cannot map — anything other than
CRITICAL or HIGH — is silently defaulted to next_action "normal" and the
aggregator branch rather than treated as a fatal error. -/
theorem routing_total_with_silent_default (s : CodeGuardState)
    (h1 : s.severity_level ≠ "CRITICAL") (h2 : s.severity_level ≠ "HIGH") :
    (supervisor_node s).next_action = "normal"
    ∧ route_after_supervisor (applySupervisor s (supervisor_node s)) = "aggregator" := by
  simp [supervisor_node, route_after_supervisor, applySupervisor, h1, h2]

/-- Closed instance of the C6 amended theorem at severity "PURPLE". -/
theorem routing_total_with_silent_default_witness :
    (supervisor_node { severity_level := "PURPLE" }).next_action = "normal"
    ∧ route_after_supervisor
        (applySupervisor { severity_level := "PURPLE" }
          (supervisor_node { severity_level := "PURPLE" })) = "aggregator" :=
  routing_total_with_silent_default { severity_level := "PURPLE" }
    (by decide) (by decide)

end CodeGuard

namespace CodeGuard

/- ── C7 ───────────────────────────────────────────────────────── -/

/-- A configured jira environment whose ticket-creation call raises. -/
def failJiraEnv : JiraEnv :=
  { jiraUrl := "https://jira.example.com", projectKey := "CG", enabled := true,
    hash := fun _ => 0, createIssue := fun _ _ _ _ _ => Except.error "jira 500" }

/-- A security review carrying one CRITICAL finding. -/
def critSecurityReview : SecurityReview :=
  { pr_summary := "found an easily exploitable injection",
    issues := [sampleCritical], risk_score := 9, has_critical := true,
    approved := false }

/-- A state as it reaches jira_node on the escalation branch: severity
CRITICAL, one CRITICAL security finding, no stored report. -/
def critJiraState : CodeGuardState :=
  { repo_name := "octo/repo", pr_number := 7, pr_title := "Add login",
    security_review := some critSecurityReview, severity_level := "CRITICAL",
    next_action := "critical" }

/-- C7 counterexample: a run whose ticket-creation call raises ends with
that error — jira_node has no try/except, so the failure propagates, the
aggregator never executes and no FinalReport is produced, contradicting
the claim that escalation failure is never fatal. -/
theorem escalation_error_kills_run_counterexample :
    runWorkflow failJiraEnv pubOk
      ⟨Except.ok {}, Except.ok critSecurityReview, Except.ok {}, Except.ok {}⟩ {} =
      Except.error "jira 500" := by
  rfl

/-- C7 amended: an error raised by the ticket-creation call propagates out
of jira_node unchanged (so the run terminates at that node instead of
proceeding to the aggregator); only when ticket creation cannot raise — in
particular on the unconfigured simulated path — does the node succeed. -/
theorem escalation_error_propagates (env : JiraEnv) (s : CodeGuardState) :
    (∀ e, create_tickets_from_review env s.repo_name s.pr_number s.pr_title
        (jiraReportOf s) = Except.error e → jira_node env s = Except.error e)
    ∧ (env.enabled = false → ∃ u, jira_node env s = Except.ok u) := by
  constructor
  · intro e he
    unfold jira_node
    simp only [he]
    rfl
  · intro h
    obtain ⟨u, hu, -⟩ := jira_node_not_enabled env h s
    exact ⟨u, hu⟩

/-- Closed instance of the C7 amended theorem: the failing client makes
jira_node fail; the unconfigured client makes it succeed. -/
theorem escalation_error_propagates_witness :
    jira_node failJiraEnv critJiraState = Except.error "jira 500"
    ∧ ∃ u, jira_node (simEnv fun _ => 0) critJiraState = Except.ok u :=
  ⟨(escalation_error_propagates failJiraEnv critJiraState).1 "jira 500" rfl,
   (escalation_error_propagates (simEnv fun _ => 0) critJiraState).2 rfl⟩

/- ── C8 ───────────────────────────────────────────────────────── -/

/-- C8 counterexample: the synthetic identifier is
`{JIRA_PROJECT_KEY}-{hash(summary) % 1000}` with the per-process
salted str hash of CPython, so two runs of the program (two process hash functions)
give different identifiers for the same ticket summary. -/
theorem simulated_id_differs_across_processes :
    create_ticket (simEnv fun _ => 0) "Duplicate summary" "d" "Bug" "High" [] =
      Except.ok { key := "CG-0", url := "https://jira.example.com/browse/CG-0",
                  status := "simulated" }
    ∧ create_ticket (simEnv fun _ => 1) "Duplicate summary" "d" "Bug" "High" [] =
      Except.ok { key := "CG-1", url := "https://jira.example.com/browse/CG-1",
                  status := "simulated" }
    ∧ ("CG-0" : String) ≠ "CG-1" :=
  ⟨rfl, rfl, by decide⟩

theorem run_reaches_notification (env : JiraEnv) (henv : env.enabled = false)
    (publish : String → Nat → String → Except String Unit)
    (hpub : ∀ rn n c, publish rn n c = Except.ok ())
    (st : StyleReview) (sec : SecurityReview) (p : PerfReview) (a : ArchReview)
    (s0 : CodeGuardState) :
    ∃ sf, runWorkflow env publish ⟨Except.ok st, Except.ok sec, Except.ok p, Except.ok a⟩ s0
        = Except.ok sf ∧ "GitHub comment posted" ∈ sf.messages := by
  cases hpn : parallel_review_node ⟨Except.ok st, Except.ok sec, Except.ok p, Except.ok a⟩ with
  | error e =>
      exfalso
      simp [parallel_review_node, gather4, Bind.bind, Except.bind, pure, Except.pure] at hpn
  | ok u1 =>
      have hpost : ∀ s : CodeGuardState, post_comment_node publish s =
          Except.ok ⟨["GitHub comment posted"]⟩ := by
        intro s
        unfold post_comment_node
        simp only [hpub]
        rfl
      unfold runWorkflow
      rw [hpn]
      by_cases hroute :
          route_after_supervisor
            (applySupervisor (applyParallel s0 u1)
              (supervisor_node (applyParallel s0 u1))) = "jira_node"
      · obtain ⟨u3, hu3, -⟩ :=
          jira_node_not_enabled env henv
            (applySupervisor (applyParallel s0 u1) (supervisor_node (applyParallel s0 u1)))
        simp only [Bind.bind, Except.bind, hroute, if_pos, hu3, hpost, pure, Except.pure]
        exact ⟨_, rfl, by simp [applyPost]⟩
      · simp only [Bind.bind, Except.bind, hroute, if_neg, not_false_iff, hpost, pure,
          Except.pure]
        exact ⟨_, rfl, by simp [applyPost]⟩

/-- C8 amended: within one process — one fixed hash function — the
simulated ticket record is deterministic: two calls with the same summary
(whatever the other arguments) yield the same synthetic identifier, with
status "simulated"; and since the unconfigured path never raises, a run
with the escalation collaborator unconfigured reaches the notification
step and publishes successfully (the published-comment log message is
recorded).  Across two processes the identifier may differ, because
CPython salts the str hash per process (see the counterexample). -/
theorem simulated_tickets_deterministic_per_process (h : String → Int)
    (summary d1 d2 t1 t2 p1 p2 : String) (l1 l2 : List String)
    (st : StyleReview) (sec : SecurityReview) (p : PerfReview) (a : ArchReview)
    (s0 : CodeGuardState) :
    (∃ r1 r2 : Ticket,
        create_ticket (simEnv h) summary d1 t1 p1 l1 = Except.ok r1 ∧
        create_ticket (simEnv h) summary d2 t2 p2 l2 = Except.ok r2 ∧
        r1.key = r2.key ∧ r1.status = "simulated")
    ∧ (∃ sf, runWorkflow (simEnv h) pubOk
          ⟨Except.ok st, Except.ok sec, Except.ok p, Except.ok a⟩ s0 = Except.ok sf
        ∧ "GitHub comment posted" ∈ sf.messages) := by
  constructor
  · exact ⟨_, _, create_ticket_not_enabled (simEnv h) rfl summary d1 t1 p1 l1,
      create_ticket_not_enabled (simEnv h) rfl summary d2 t2 p2 l2, rfl, rfl⟩
  · exact run_reaches_notification (simEnv h) rfl pubOk (fun _ _ _ => rfl) st sec p a s0

/-- Closed instance of the C8 amended theorem at a concrete process hash
and concrete inputs. -/
theorem simulated_tickets_deterministic_per_process_witness :
    (∃ r1 r2 : Ticket,
        create_ticket (simEnv fun _ => 41) "Duplicate summary" "d1" "Bug" "Highest" [] =
          Except.ok r1 ∧
        create_ticket (simEnv fun _ => 41) "Duplicate summary" "d2" "Task" "High"
          ["codeguard"] = Except.ok r2 ∧
        r1.key = r2.key ∧ r1.status = "simulated")
    ∧ (∃ sf, runWorkflow (simEnv fun _ => 41) pubOk
          ⟨Except.ok {}, Except.ok {}, Except.ok {}, Except.ok {}⟩ {} = Except.ok sf
        ∧ "GitHub comment posted" ∈ sf.messages) :=
  simulated_tickets_deterministic_per_process (fun _ => 41) "Duplicate summary"
    "d1" "d2" "Bug" "Task" "Highest" "High" [] ["codeguard"] {} {} {} {} {}

end CodeGuard

namespace CodeGuard

/- ── C9 ───────────────────────────────────────────────────────── -/

/-- C9: the report builder used by the aggregator is a pure deterministic
function of the snapshot it reads — any two states agreeing on the
change-set identity, severity and the four reviewer outcomes yield
identical FinalReports (so nothing else in the state, no clock and no
randomness can influence the report); the merged finding sequence is the
concatenation in the fixed order style, security, performance,
architecture; and every severity bucket is the stable filter of that
concatenation, hence an order-preserving subsequence of it. -/
theorem aggregator_pure_deterministic (s t : CodeGuardState)
    (h1 : s.repo_name = t.repo_name) (h2 : s.pr_number = t.pr_number)
    (h3 : s.pr_title = t.pr_title) (h4 : s.severity_level = t.severity_level)
    (h5 : s.style_review = t.style_review) (h6 : s.security_review = t.security_review)
    (h7 : s.perf_review = t.perf_review) (h8 : s.arch_review = t.arch_review) :
    build_report s = build_report t
    ∧ all_issues s = styleIssues s ++ securityIssues s ++ perfIssues s ++ archIssues s
    ∧ criticalBucket s = (all_issues s).filter (fun i => i.severity == "CRITICAL")
    ∧ highBucket s = (all_issues s).filter (fun i => i.severity == "HIGH")
    ∧ List.Sublist (criticalBucket s) (all_issues s)
    ∧ List.Sublist (highBucket s) (all_issues s)
    ∧ List.Sublist (mediumBucket s) (all_issues s)
    ∧ List.Sublist (lowBucket s) (all_issues s) := by
  refine ⟨?_, rfl, rfl, rfl, List.filter_sublist _, List.filter_sublist _,
    List.filter_sublist _, List.filter_sublist _⟩
  unfold build_report criticalBucket highBucket mediumBucket lowBucket all_issues
    styleIssues securityIssues perfIssues archIssues styleScore securityScore
    perfScore archScore
  rw [h1, h2, h3, h4, h5, h6, h7, h8]

/-- A state that differs from the empty state only in fields outside the
report snapshot: author, autofix flag, routing tag and message log. -/
def noisyState : CodeGuardState :=
  { pr_author := "alice", should_autofix := true, next_action := "critical",
    messages := ["noise"] }

/-- Closed instance of C9: states differing only in fields outside the
report snapshot (author, autofix flag, routing tag, message log) produce
the same report. -/
theorem aggregator_pure_deterministic_witness :
    build_report ({} : CodeGuardState) = build_report noisyState :=
  (aggregator_pure_deterministic {} noisyState rfl rfl rfl rfl rfl rfl rfl rfl).1

/- ── C10 ──────────────────────────────────────────────────────── -/

/-- C10: while no final report is stored, the report jira_node computes and
hands to ticket creation is exactly `build_report` of the current state;
jira_node is precisely ticket creation on that report followed by the
jira-tickets/log update; that update does not touch any field the report
builder reads, so the aggregator node executed next stores the very same
report. -/
theorem jira_report_refines_aggregator (env : JiraEnv) (s : CodeGuardState)
    (h : s.final_report = none) (u : JiraUpdate) :
    jiraReportOf s = build_report s
    ∧ jira_node env s =
        (create_tickets_from_review env s.repo_name s.pr_number s.pr_title
          (build_report s)).map
          (fun tickets =>
            { jira_tickets := tickets
              messages := ["Created " ++ toString tickets.length ++ " JIRA tickets"] })
    ∧ build_report (applyJira s u) = build_report s
    ∧ (aggregator_node (applyJira s u)).final_report = build_report s
    ∧ (applyAggregator (applyJira s u) (aggregator_node (applyJira s u))).final_report
        = some (build_report s) := by
  have hrep : jiraReportOf s = build_report s := by
    simp [jiraReportOf, h]
  have hpres : build_report (applyJira s u) = build_report s := rfl
  refine ⟨hrep, ?_, hpres, hpres, congrArg some hpres⟩
  unfold jira_node
  simp only [hrep]
  cases hc : create_tickets_from_review env s.repo_name s.pr_number s.pr_title
      (build_report s) <;>
    simp [hc, Except.map, Bind.bind, Except.bind, pure, Except.pure]

/-- Closed instance of C10 at a state with no stored report. -/
theorem jira_report_refines_aggregator_witness :
    jiraReportOf critJiraState = build_report critJiraState :=
  (jira_report_refines_aggregator (simEnv fun _ => 0) critJiraState rfl ⟨[], []⟩).1

end CodeGuard
